import Mathlib

/-!
Shallow embedding of the solana-tokens-exchange program
(src/program/src/{instruction,state,error,processor}.rs).

Bytes are modeled as `List Nat` (each element a byte value), u64 values as
`Nat` with explicit `% 2 ^ 64` where Rust's u64 arithmetic can overflow, and
32-byte ledger addresses (`Pubkey`) as `List Nat` of length 32.  Fallible code
returns `Except ProgramError`.  Each handler of `Processor` is embedded as a
function from its ordered account list to the trace of effects it issues
(token-ledger requests and store-record writes, in program order) together
with `none` on success or `some e` when it returns the error `e`; effects
already issued before a failing check stay in the trace, mirroring the
source's sequential execution.
-/

set_option maxRecDepth 100000

instance {ε α : Type} [DecidableEq ε] [DecidableEq α] : DecidableEq (Except ε α)
  | .ok a, .ok b => if h : a = b then .isTrue (by rw [h]) else .isFalse (by simp [h])
  | .ok _, .error _ => .isFalse (by simp)
  | .error _, .ok _ => .isFalse (by simp)
  | .error a, .error b => if h : a = b then .isTrue (by rw [h]) else .isFalse (by simp [h])

/-- A 32-byte ledger address, as its list of byte values. -/
abbrev Pubkey := List Nat

/-- The error variants the program surfaces (the `solana_program::ProgramError`
variants the source uses, plus `Custom` for program-defined codes). -/
inductive ProgramError where
  | MissingRequiredSignature
  | IncorrectProgramId
  | InvalidAccountData
  | InvalidInstructionData
  | AccountAlreadyInitialized
  | UninitializedAccount
  | AccountNotRentExempt
  | NotEnoughAccountKeys
  | Custom (code : Nat)
deriving DecidableEq

/-- src/program/src/error.rs: the program's own error enum. -/
inductive StoreError where
  | AccountPriceMismatch
deriving DecidableEq

/-- src/program/src/error.rs: `From<StoreError> for ProgramError` maps the
variant to `ProgramError::Custom(e as u32)`; `AccountPriceMismatch as u32 = 0`. -/
def StoreError.toProgramError : StoreError → ProgramError
  | .AccountPriceMismatch => .Custom 0

/-- The modulus of Rust's u64 type. -/
def U64MOD : Nat := 2 ^ 64

/-- `u64::to_le_bytes` generalized: the `w` little-endian base-256 digits of `n`. -/
def toLeBytes : Nat → Nat → List Nat
  | 0, _ => []
  | w + 1, n => n % 256 :: toLeBytes w (n / 256)

/-- `u64::from_le_bytes` generalized: read a little-endian base-256 digit list. -/
def fromLeBytes : List Nat → Nat
  | [] => 0
  | b :: rest => b + 256 * fromLeBytes rest

/-- src/program/src/instruction.rs: the four instruction variants.  u64
payloads are Nats; every value produced by `unpack` from genuine bytes is
below `U64MOD`. -/
inductive StoreInstruction where
  | InitializeAccount (price : Nat)
  | UpdatePrice (price : Nat)
  | Buy (amount : Nat) (price : Nat)
  | Sell (amount : Nat) (price : Nat)
deriving DecidableEq

/-- The payloads are representable u64 values. -/
def StoreInstruction.wf : StoreInstruction → Prop
  | .InitializeAccount price => price < U64MOD
  | .UpdatePrice price => price < U64MOD
  | .Buy amount price => amount < U64MOD ∧ price < U64MOD
  | .Sell amount price => amount < U64MOD ∧ price < U64MOD

instance : DecidablePred StoreInstruction.wf := by
  intro x
  cases x <;> simp only [StoreInstruction.wf] <;> infer_instance

/-- src/program/src/instruction.rs `StoreInstruction::unpack_u64`: read the
8 bytes of `input` starting at `offset` as a little-endian u64, failing with
`InvalidInstructionData` when fewer than 8 bytes are available there. -/
def StoreInstruction.unpack_u64 (offset : Nat) (input : List Nat) :
    Except ProgramError Nat :=
  let slice := (input.drop offset).take 8
  if slice.length = 8 then .ok (fromLeBytes slice)
  else .error .InvalidInstructionData

/-- src/program/src/instruction.rs `StoreInstruction::unpack`: split off the
tag byte (empty input fails), dispatch on it (unknown tags fail), and read the
little-endian u64 payloads from the rest. -/
def StoreInstruction.unpack (input : List Nat) :
    Except ProgramError StoreInstruction :=
  match input with
  | [] => .error .InvalidInstructionData
  | 0 :: rest =>
    match unpack_u64 0 rest with
    | .ok price => .ok (.InitializeAccount price)
    | .error e => .error e
  | 1 :: rest =>
    match unpack_u64 0 rest with
    | .ok price => .ok (.UpdatePrice price)
    | .error e => .error e
  | 2 :: rest =>
    match unpack_u64 0 rest with
    | .error e => .error e
    | .ok amount =>
      match unpack_u64 8 rest with
      | .error e => .error e
      | .ok price => .ok (.Buy amount price)
  | 3 :: rest =>
    match unpack_u64 0 rest with
    | .error e => .error e
    | .ok amount =>
      match unpack_u64 8 rest with
      | .error e => .error e
      | .ok price => .ok (.Sell amount price)
  | _ :: _ => .error .InvalidInstructionData

/-- src/program/src/instruction.rs `StoreInstruction::pack`: the tag byte
followed by the little-endian bytes of the payloads. -/
def StoreInstruction.pack : StoreInstruction → List Nat
  | .InitializeAccount price => 0 :: toLeBytes 8 price
  | .UpdatePrice price => 1 :: toLeBytes 8 price
  | .Buy amount price => 2 :: (toLeBytes 8 amount ++ toLeBytes 8 price)
  | .Sell amount price => 3 :: (toLeBytes 8 amount ++ toLeBytes 8 price)

/-- src/program/src/state.rs: the persisted store record. -/
structure Store where
  is_initialized : Bool
  price : Nat
  owner_pubkey : Pubkey
  native_tokens_to_auto_sell_pubkey : Pubkey
  store_tokens_to_auto_buy_pubkey : Pubkey
deriving DecidableEq

/-- src/program/src/state.rs: `Store::LEN = 1 + 8 + 32 + 32 + 32`. -/
def Store.LEN : Nat := 105

/-- src/program/src/state.rs `Store::unpack_from_slice`: split the first 105
bytes into flag, little-endian price and three 32-byte addresses; a flag byte
other than 0 or 1 fails with `InvalidAccountData`. -/
def Store.unpack_from_slice (src : List Nat) : Except ProgramError Store :=
  match src.take 1 with
  | [0] => .ok ⟨false, fromLeBytes ((src.drop 1).take 8), (src.drop 9).take 32,
      (src.drop 41).take 32, (src.drop 73).take 32⟩
  | [1] => .ok ⟨true, fromLeBytes ((src.drop 1).take 8), (src.drop 9).take 32,
      (src.drop 41).take 32, (src.drop 73).take 32⟩
  | _ => .error .InvalidAccountData

/-- `solana_program::program_pack::Pack::unpack_unchecked` for `Store` (the
entry point the processor calls): reject inputs whose length is not
`Store::LEN`, then `unpack_from_slice`. -/
def Store.unpack_unchecked (src : List Nat) : Except ProgramError Store :=
  if src.length = Store.LEN then Store.unpack_from_slice src
  else .error .InvalidAccountData

/-- src/program/src/state.rs `Store::pack_into_slice` as the 105 bytes it
writes: flag byte, little-endian price, then the three addresses verbatim. -/
def Store.pack_into_slice (s : Store) : List Nat :=
  (if s.is_initialized then [1] else [0]) ++ toLeBytes 8 s.price
    ++ s.owner_pubkey ++ s.native_tokens_to_auto_sell_pubkey
    ++ s.store_tokens_to_auto_buy_pubkey

/-- The token-ledger program's address (`spl_token::id()`): an external
constant compared only for equality, modeled as a fixed 32-byte value. -/
def spl_token_id : Pubkey := List.replicate 32 6

/-- The token-ledger collaborator's token-account state
(`spl_token::state::Account`), as read back by the processor. -/
structure SplTokenAccount where
  mint : Pubkey
  owner : Pubkey
  amount : Nat
  delegate : Option Pubkey
  state : Nat
  is_native : Option Nat
  delegated_amount : Nat
  close_authority : Option Pubkey
deriving DecidableEq

/-- spl-token `unpack_coption_key`: a 4-byte tag (`[0,0,0,0]` = none,
`[1,0,0,0]` = some) followed by a 32-byte address; other tags fail. -/
def unpack_coption_key (src : List Nat) : Except ProgramError (Option Pubkey) :=
  match src.take 4 with
  | [0, 0, 0, 0] => .ok none
  | [1, 0, 0, 0] => .ok (some ((src.drop 4).take 32))
  | _ => .error .InvalidAccountData

/-- spl-token `unpack_coption_u64`: a 4-byte tag followed by a little-endian
u64; tags other than none/some fail. -/
def unpack_coption_u64 (src : List Nat) : Except ProgramError (Option Nat) :=
  match src.take 4 with
  | [0, 0, 0, 0] => .ok none
  | [1, 0, 0, 0] => .ok (some (fromLeBytes ((src.drop 4).take 8)))
  | _ => .error .InvalidAccountData

/-- spl-token `Account::unpack_from_slice` on the 165-byte layout
`[mint:32][owner:32][amount:8][delegate:36][state:1][is_native:12]`
`[delegated_amount:8][close_authority:36]`; the option tags and the state
byte (0, 1 or 2) are validated in field order. -/
def SplTokenAccount.unpack_from_slice (src : List Nat) :
    Except ProgramError SplTokenAccount :=
  match unpack_coption_key ((src.drop 72).take 36) with
  | .error e => .error e
  | .ok delegate =>
    if ((src.drop 108).take 1 = [0] ∨ (src.drop 108).take 1 = [1]
        ∨ (src.drop 108).take 1 = [2]) then
      match unpack_coption_u64 ((src.drop 109).take 12) with
      | .error e => .error e
      | .ok isNative =>
        match unpack_coption_key ((src.drop 129).take 36) with
        | .error e => .error e
        | .ok closeAuthority =>
          .ok { mint := src.take 32
                owner := (src.drop 32).take 32
                amount := fromLeBytes ((src.drop 64).take 8)
                delegate := delegate
                state := fromLeBytes ((src.drop 108).take 1)
                is_native := isNative
                delegated_amount := fromLeBytes ((src.drop 121).take 8)
                close_authority := closeAuthority }
    else .error .InvalidAccountData

/-- `Pack::unpack_unchecked` for the token-ledger account: reject inputs whose
length is not 165, then `unpack_from_slice`. -/
def SplTokenAccount.unpack_unchecked (src : List Nat) :
    Except ProgramError SplTokenAccount :=
  if src.length = 165 then SplTokenAccount.unpack_from_slice src
  else .error .InvalidAccountData

/-- One caller-supplied account handle, with the metadata the processor
reads: its address, signer flag, owning program, balance and data bytes. -/
structure AccountInfo where
  key : Pubkey
  is_signer : Bool
  owner : Pubkey
  lamports : Nat
  data : List Nat
deriving DecidableEq

/-- The byte literal `b"store"`, the fixed derivation seed label. -/
def storeSeed : List Nat := [115, 116, 111, 114, 101]

/-- Modelled from the spec: the deterministic derivation
`derive(label) -> (address, bump)` (`Pubkey::find_program_address`), whose
concrete value comes from a hash search that lives outside this repository;
modeled as an arbitrary fixed computable function of the seeds and program
address.  Every statement below applies it to the same arguments on both
sides, so only its determinism matters. -/
def find_program_address (seeds : List (List Nat)) (program_id : Pubkey) :
    Pubkey × Nat :=
  (((seeds.flatten ++ program_id).map fun b => (b + 7) % 256).take 32, 255)

/-- A request issued to the token-ledger collaborator: the content of the
`spl_token::instruction` built and passed to `invoke`/`invoke_signed`.
`seed_groups` is the seed list given to `invoke_signed` (empty for a plain
`invoke`). -/
inductive TokenRequest where
  | transfer (token_program source dest authority : Pubkey)
      (signer_keys : List Pubkey) (amount : Nat)
      (seed_groups : List (List (List Nat)))
  | set_authority (token_program account : Pubkey)
      (new_authority : Option Pubkey) (authority_type : Nat)
      (current_authority : Pubkey) (signer_keys : List Pubkey)
deriving DecidableEq

/-- spl-token `AuthorityType::AccountOwner as u8`. -/
def AuthorityTypeAccountOwner : Nat := 2

/-- One observable step of a handler: a token-ledger request, or a write of
the store account's data bytes (`Store::pack`). -/
inductive Effect where
  | token (request : TokenRequest)
  | writeStore (data : List Nat)
deriving DecidableEq

/-- src/program/src/processor.rs `Processor::process_init_store`, as the
trace of effects it issues and its outcome.  The storage-exemption oracle
(`Rent::is_exempt`, an external collaborator the spec models as
`is_exempt(balance, data_length) -> bool`) is passed in as `rentExempt`. -/
def process_init_store (accounts : List AccountInfo) (price : Nat)
    (program_id : Pubkey) (rentExempt : Nat → Nat → Bool) :
    List Effect × Option ProgramError :=
  match accounts with
  | [] => ([], some .NotEnoughAccountKeys)
  | owner :: accounts1 =>
  if owner.is_signer = false then ([], some .MissingRequiredSignature) else
  match accounts1 with
  | [] => ([], some .NotEnoughAccountKeys)
  | store_account :: accounts2 =>
  match accounts2 with
  | [] => ([], some .NotEnoughAccountKeys)
  | native_tokens_account :: accounts3 =>
  match accounts3 with
  | [] => ([], some .NotEnoughAccountKeys)
  | store_tokens_account :: accounts4 =>
  match accounts4 with
  | [] => ([], some .NotEnoughAccountKeys)
  | token_program :: accounts5 =>
  if store_tokens_account.owner ≠ spl_token_id then ([], some .IncorrectProgramId) else
  if native_tokens_account.owner ≠ spl_token_id then ([], some .IncorrectProgramId) else
  let pda := (find_program_address [storeSeed] program_id).1
  let e1 := Effect.token (.set_authority token_program.key store_tokens_account.key
    (some pda) AuthorityTypeAccountOwner owner.key [owner.key])
  let e2 := Effect.token (.set_authority token_program.key native_tokens_account.key
    (some pda) AuthorityTypeAccountOwner owner.key [owner.key])
  match accounts5 with
  | [] => ([e1, e2], some .NotEnoughAccountKeys)
  | _rent_account :: _ =>
  if rentExempt store_account.lamports store_account.data.length = false then
    ([e1, e2], some .AccountNotRentExempt) else
  if store_account.owner ≠ program_id then ([e1, e2], some .IncorrectProgramId) else
  match Store.unpack_unchecked store_account.data with
  | .error e => ([e1, e2], some e)
  | .ok store_info =>
  if store_info.is_initialized then ([e1, e2], some .AccountAlreadyInitialized) else
  ([e1, e2, .writeStore (Store.pack_into_slice
    { store_info with
      is_initialized := true
      price := price
      owner_pubkey := owner.key
      native_tokens_to_auto_sell_pubkey := native_tokens_account.key
      store_tokens_to_auto_buy_pubkey := store_tokens_account.key })], none)

/-- src/program/src/processor.rs `Processor::process_update_price`, as the
trace of effects it issues and its outcome. -/
def process_update_price (accounts : List AccountInfo) (price : Nat)
    (program_id : Pubkey) : List Effect × Option ProgramError :=
  match accounts with
  | [] => ([], some .NotEnoughAccountKeys)
  | owner :: accounts1 =>
  if owner.is_signer = false then ([], some .MissingRequiredSignature) else
  match accounts1 with
  | [] => ([], some .NotEnoughAccountKeys)
  | store_account :: _ =>
  if store_account.owner ≠ program_id then ([], some .IncorrectProgramId) else
  match Store.unpack_unchecked store_account.data with
  | .error e => ([], some e)
  | .ok store_info =>
  if store_info.is_initialized = false then ([], some .UninitializedAccount) else
  if store_info.owner_pubkey ≠ owner.key then ([], some .InvalidAccountData) else
  ([.writeStore (Store.pack_into_slice { store_info with price := price })], none)

/-- src/program/src/processor.rs `Processor::process_buy`, as the trace of
effects it issues and its outcome.  `amount * price % U64MOD` is Rust's
wrapping u64 multiplication. -/
def process_buy (accounts : List AccountInfo) (amount price : Nat)
    (program_id : Pubkey) : List Effect × Option ProgramError :=
  match accounts with
  | [] => ([], some .NotEnoughAccountKeys)
  | buyer :: accounts1 =>
  if buyer.is_signer = false then ([], some .MissingRequiredSignature) else
  match accounts1 with
  | [] => ([], some .NotEnoughAccountKeys)
  | store_account :: accounts2 =>
  if store_account.owner ≠ program_id then ([], some .IncorrectProgramId) else
  match Store.unpack_unchecked store_account.data with
  | .error e => ([], some e)
  | .ok store_info =>
  if store_info.is_initialized = false then ([], some .UninitializedAccount) else
  if price ≠ store_info.price then
    ([], some (StoreError.toProgramError .AccountPriceMismatch)) else
  match accounts2 with
  | [] => ([], some .NotEnoughAccountKeys)
  | store_account_payment_tokens :: accounts3 =>
  match accounts3 with
  | [] => ([], some .NotEnoughAccountKeys)
  | store_account_store_tokens :: accounts4 =>
  if store_account_payment_tokens.owner ≠ spl_token_id then
    ([], some .IncorrectProgramId) else
  match SplTokenAccount.unpack_unchecked store_account_payment_tokens.data with
  | .error e => ([], some e)
  | .ok test_info =>
  if test_info.owner ≠ store_info.owner_pubkey then
    ([], some .InvalidAccountData) else
  match accounts4 with
  | [] => ([], some .NotEnoughAccountKeys)
  | user_account_payment_tokens :: accounts5 =>
  match accounts5 with
  | [] => ([], some .NotEnoughAccountKeys)
  | user_account_store_tokens :: accounts6 =>
  match accounts6 with
  | [] => ([], some .NotEnoughAccountKeys)
  | _pda_account :: accounts7 =>
  match accounts7 with
  | [] => ([], some .NotEnoughAccountKeys)
  | token_program :: _ =>
  let pda := (find_program_address [storeSeed] program_id).1
  let nonce := (find_program_address [storeSeed] program_id).2
  ([.token (.transfer token_program.key user_account_payment_tokens.key
      store_account_payment_tokens.key buyer.key [buyer.key]
      (amount * price % U64MOD) []),
    .token (.transfer token_program.key store_account_store_tokens.key
      user_account_store_tokens.key pda [pda] amount
      [[storeSeed, [nonce]]])], none)

/-- src/program/src/processor.rs `Processor::process_sell`, as the trace of
effects it issues and its outcome. -/
def process_sell (accounts : List AccountInfo) (amount price : Nat)
    (program_id : Pubkey) : List Effect × Option ProgramError :=
  match accounts with
  | [] => ([], some .NotEnoughAccountKeys)
  | seller :: accounts1 =>
  if seller.is_signer = false then ([], some .MissingRequiredSignature) else
  match accounts1 with
  | [] => ([], some .NotEnoughAccountKeys)
  | store_account :: accounts2 =>
  if store_account.owner ≠ program_id then ([], some .IncorrectProgramId) else
  match Store.unpack_unchecked store_account.data with
  | .error e => ([], some e)
  | .ok store_info =>
  if store_info.is_initialized = false then ([], some .UninitializedAccount) else
  if price ≠ store_info.price then
    ([], some (StoreError.toProgramError .AccountPriceMismatch)) else
  match accounts2 with
  | [] => ([], some .NotEnoughAccountKeys)
  | store_account_payment_tokens :: accounts3 =>
  match accounts3 with
  | [] => ([], some .NotEnoughAccountKeys)
  | store_account_store_tokens :: accounts4 =>
  if store_account_store_tokens.owner ≠ spl_token_id then
    ([], some .IncorrectProgramId) else
  match SplTokenAccount.unpack_unchecked store_account_store_tokens.data with
  | .error e => ([], some e)
  | .ok test_info =>
  if test_info.owner ≠ store_info.owner_pubkey then
    ([], some .InvalidAccountData) else
  match accounts4 with
  | [] => ([], some .NotEnoughAccountKeys)
  | user_account_payment_tokens :: accounts5 =>
  match accounts5 with
  | [] => ([], some .NotEnoughAccountKeys)
  | user_account_store_tokens :: accounts6 =>
  match accounts6 with
  | [] => ([], some .NotEnoughAccountKeys)
  | _pda_account :: accounts7 =>
  match accounts7 with
  | [] => ([], some .NotEnoughAccountKeys)
  | token_program :: _ =>
  let pda := (find_program_address [storeSeed] program_id).1
  let nonce := (find_program_address [storeSeed] program_id).2
  ([.token (.transfer token_program.key user_account_store_tokens.key
      store_account_store_tokens.key seller.key [seller.key] amount []),
    .token (.transfer token_program.key store_account_payment_tokens.key
      user_account_payment_tokens.key pda [pda]
      (amount * price % U64MOD) [[storeSeed, [nonce]]])], none)

/-- src/program/src/processor.rs `Processor::process`: decode the instruction
bytes and dispatch to the matching handler. -/
def Processor.process (accounts : List AccountInfo)
    (instruction_data : List Nat) (program_id : Pubkey)
    (rentExempt : Nat → Nat → Bool) : List Effect × Option ProgramError :=
  match StoreInstruction.unpack instruction_data with
  | .error e => ([], some e)
  | .ok (.InitializeAccount price) =>
      process_init_store accounts price program_id rentExempt
  | .ok (.UpdatePrice price) => process_update_price accounts price program_id
  | .ok (.Buy amount price) => process_buy accounts amount price program_id
  | .ok (.Sell amount price) => process_sell accounts amount price program_id

/-- The u64 quantity carried by the transfer request at position `i` of an
effect trace, when there is one. -/
def transfer_amount_at (effects : List Effect) (i : Nat) : Option Nat :=
  match effects[i]? with
  | some (.token (.transfer _ _ _ _ _ amount _)) => some amount
  | _ => none

/-- Concrete program address used by the evaluated statements below. -/
def pidC : Pubkey := List.replicate 32 9

/-- Concrete record-owner address. -/
def ownerKeyC : Pubkey := List.replicate 32 1

/-- Concrete quote-token account address recorded at initialization. -/
def recordedQuoteC : Pubkey := List.replicate 32 2

/-- Concrete base-token account address recorded at initialization. -/
def recordedBaseC : Pubkey := List.replicate 32 3

/-- Concrete initialized store record with price 5. -/
def storeRecordC : Store := ⟨true, 5, ownerKeyC, recordedQuoteC, recordedBaseC⟩

/-- Valid 165-byte token-ledger account data whose authority field is the
given address (zero mint and balance, no delegate, Initialized state, not
native, no close authority). -/
def splBytesFor (authority : Pubkey) : List Nat :=
  List.replicate 32 0 ++ authority ++ List.replicate 8 0
    ++ (List.replicate 4 0 ++ List.replicate 32 0) ++ [1]
    ++ (List.replicate 4 0 ++ List.replicate 8 0) ++ List.replicate 8 0
    ++ (List.replicate 4 0 ++ List.replicate 32 0)

/-- Concrete signing counterparty. -/
def buyerC : AccountInfo := ⟨List.replicate 32 30, true, [], 0, []⟩

/-- Concrete store account: owned by the program, holding `storeRecordC`. -/
def storeAccC : AccountInfo :=
  ⟨List.replicate 32 10, false, pidC, 0, Store.pack_into_slice storeRecordC⟩

/-- Concrete store-side quote-token account whose address differs from the
recorded identifiers but whose ledger authority is the record owner. -/
def substQuoteC : AccountInfo :=
  ⟨List.replicate 32 20, false, spl_token_id, 0, splBytesFor ownerKeyC⟩

/-- Concrete store-side base-token account, also substituted. -/
def substBaseC : AccountInfo :=
  ⟨List.replicate 32 21, false, spl_token_id, 0, splBytesFor ownerKeyC⟩

/-- Concrete store-side quote-token account whose ledger authority is NOT the
record owner. -/
def wrongAuthQuoteC : AccountInfo :=
  ⟨List.replicate 32 25, false, spl_token_id, 0,
    splBytesFor (List.replicate 32 50)⟩

/-- Concrete counterparty quote-token account. -/
def userQuoteC : AccountInfo := ⟨List.replicate 32 22, false, [], 0, []⟩

/-- Concrete counterparty base-token account. -/
def userBaseC : AccountInfo := ⟨List.replicate 32 23, false, [], 0, []⟩

/-- Concrete derived-authority account handle. -/
def pdaAccC : AccountInfo := ⟨List.replicate 32 24, false, [], 0, []⟩

/-- Concrete token-ledger program account handle. -/
def tokenProgC : AccountInfo := ⟨spl_token_id, false, [], 0, []⟩

/-- Concrete rent-sysvar account handle. -/
def rentAccC : AccountInfo := ⟨List.replicate 32 60, false, [], 0, []⟩

/-- Concrete Buy/Sell account list, with both store-side token accounts
substituted away from the recorded identifiers. -/
def accountsC : List AccountInfo :=
  [buyerC, storeAccC, substQuoteC, substBaseC, userQuoteC, userBaseC,
    pdaAccC, tokenProgC]

/-- Concrete signer whose address is not the record owner's. -/
def nonOwnerC : AccountInfo := ⟨List.replicate 32 40, true, [], 0, []⟩

/-- Concrete signer whose address is the record owner's. -/
def ownerSignedC : AccountInfo := ⟨ownerKeyC, true, [], 0, []⟩

theorem toLeBytes_length (w n : Nat) : (toLeBytes w n).length = w := by
  induction w generalizing n with
  | zero => rfl
  | succ w ih => simp [toLeBytes, ih]

theorem fromLeBytes_toLeBytes (w n : Nat) (h : n < 256 ^ w) :
    fromLeBytes (toLeBytes w n) = n := by
  induction w generalizing n with
  | zero => simp at h; simp [h, toLeBytes, fromLeBytes]
  | succ w ih =>
    have hdiv : n / 256 < 256 ^ w := by
      rw [Nat.div_lt_iff_lt_mul (by norm_num)]
      calc n < 256 ^ (w + 1) := h
        _ = 256 ^ w * 256 := by ring
    simp only [toLeBytes, fromLeBytes, ih _ hdiv]
    exact Nat.mod_add_div n 256

theorem pow_256_8_eq : (256 : Nat) ^ 8 = U64MOD := by norm_num [U64MOD]

theorem unpack_u64_zero_toLe (n : Nat) (hn : n < U64MOD) (xs : List Nat) :
    StoreInstruction.unpack_u64 0 (toLeBytes 8 n ++ xs) = .ok n := by
  have h8 : (toLeBytes 8 n).length = 8 := toLeBytes_length 8 n
  simp only [StoreInstruction.unpack_u64, List.drop_zero, List.take_left' h8, h8,
    if_pos rfl, if_true]
  rw [fromLeBytes_toLeBytes 8 n (pow_256_8_eq ▸ hn)]

theorem unpack_u64_zero_toLe_nil (n : Nat) (hn : n < U64MOD) :
    StoreInstruction.unpack_u64 0 (toLeBytes 8 n) = .ok n := by
  have h := unpack_u64_zero_toLe n hn []
  rwa [List.append_nil] at h

theorem unpack_u64_eight_toLe (m n : Nat) (hn : n < U64MOD) :
    StoreInstruction.unpack_u64 8 (toLeBytes 8 m ++ toLeBytes 8 n) = .ok n := by
  have h8m : (toLeBytes 8 m).length = 8 := toLeBytes_length 8 m
  have h8n : (toLeBytes 8 n).length = 8 := toLeBytes_length 8 n
  simp only [StoreInstruction.unpack_u64, List.drop_left' h8m,
    List.take_of_length_le (le_of_eq h8n), h8n, if_pos rfl, if_true]
  rw [fromLeBytes_toLeBytes 8 n (pow_256_8_eq ▸ hn)]

/-- C9: decoding the encoding of any of the four instruction variants, for
every representable u64 payload (zero and `u64::MAX` included), returns the
original instruction: `StoreInstruction::unpack (x.pack()) == Ok(x)`. -/
theorem instruction_decode_encode_roundtrip (x : StoreInstruction)
    (hx : x.wf) : StoreInstruction.unpack (StoreInstruction.pack x) = .ok x := by
  cases x with
  | InitializeAccount price =>
    have hp : price < U64MOD := hx
    simp [StoreInstruction.pack, StoreInstruction.unpack,
      unpack_u64_zero_toLe_nil price hp]
  | UpdatePrice price =>
    have hp : price < U64MOD := hx
    simp [StoreInstruction.pack, StoreInstruction.unpack,
      unpack_u64_zero_toLe_nil price hp]
  | Buy amount price =>
    obtain ⟨ha, hp⟩ : amount < U64MOD ∧ price < U64MOD := hx
    simp [StoreInstruction.pack, StoreInstruction.unpack,
      unpack_u64_zero_toLe amount ha, unpack_u64_eight_toLe amount price hp]
  | Sell amount price =>
    obtain ⟨ha, hp⟩ : amount < U64MOD ∧ price < U64MOD := hx
    simp [StoreInstruction.pack, StoreInstruction.unpack,
      unpack_u64_zero_toLe amount ha, unpack_u64_eight_toLe amount price hp]

/-- C9 witness: the round trip evaluated on `Sell` with both payloads at
`u64::MAX`. -/
theorem instruction_decode_encode_roundtrip_witness :
    StoreInstruction.unpack
      (StoreInstruction.pack (.Sell (2 ^ 64 - 1) (2 ^ 64 - 1))) =
      .ok (.Sell (2 ^ 64 - 1) (2 ^ 64 - 1)) :=
  instruction_decode_encode_roundtrip (.Sell (2 ^ 64 - 1) (2 ^ 64 - 1))
    (by constructor <;> decide)

/-- C10: the store-record reader accepts the all-zero 105-byte buffer as the
uninitialized record with zero price and all-zero identifiers, and rejects
every 105-byte buffer whose flag byte is neither 0 nor 1 with the
`InvalidAccountData` code (the spec's `LayoutError`). -/
theorem store_unpack_zero_buffer_and_bad_flag :
    (Store.unpack_unchecked (List.replicate 105 0) =
      .ok ⟨false, 0, List.replicate 32 0, List.replicate 32 0,
        List.replicate 32 0⟩) ∧
    ∀ b tl, (b :: tl : List Nat).length = 105 → b ≠ 0 → b ≠ 1 →
      Store.unpack_unchecked (b :: tl) = .error .InvalidAccountData := by
  constructor
  · decide
  · intro b tl hlen hb0 hb1
    rw [Store.unpack_unchecked,
      if_pos (show (b :: tl : List Nat).length = Store.LEN from hlen)]
    match b, hb0, hb1 with
    | Nat.succ (Nat.succ m), _, _ => rfl

/-- C10 witness: the rejection evaluated on the 105-byte buffer whose flag
byte is 2. -/
theorem store_unpack_bad_flag_witness :
    Store.unpack_unchecked (2 :: List.replicate 104 0) =
      .error .InvalidAccountData :=
  store_unpack_zero_buffer_and_bad_flag.2 2 (List.replicate 104 0)
    (by simp) (by decide) (by decide)

/-- C1: when the Buy handler's preconditions hold (signing buyer; store
account owned by this program; record initialized; supplied price equal to
the stored price; store-side quote-token account owned by the token-ledger
program with ledger-reported authority equal to the record's owner address),
Buy requests exactly two token transfers in order: first
`amount * price` (wrapping u64) quote-token units from the buyer's
quote-token account to the store's quote-token account authorized by the
buyer's signature, then `amount` base-token units from the store's
base-token account to the buyer's base-token account authorized by the
program-derived authority, signed with the derived address and bump. -/
theorem buy_requests_two_transfers
    (a0 a1 a2 a3 a4 a5 a6 a7 : AccountInfo) (rest : List AccountInfo)
    (amount price : Nat) (pid : Pubkey) (si : Store) (ti : SplTokenAccount)
    (hs : a0.is_signer = true)
    (hso : a1.owner = pid)
    (hunp : Store.unpack_unchecked a1.data = .ok si)
    (hinit : si.is_initialized = true)
    (hp : price = si.price)
    (hto : a2.owner = spl_token_id)
    (htunp : SplTokenAccount.unpack_unchecked a2.data = .ok ti)
    (hown : ti.owner = si.owner_pubkey) :
    process_buy (a0 :: a1 :: a2 :: a3 :: a4 :: a5 :: a6 :: a7 :: rest)
        amount price pid =
      ([.token (.transfer a7.key a4.key a2.key a0.key [a0.key]
          (amount * price % U64MOD) []),
        .token (.transfer a7.key a3.key a5.key
          (find_program_address [storeSeed] pid).1
          [(find_program_address [storeSeed] pid).1] amount
          [[storeSeed, [(find_program_address [storeSeed] pid).2]]])],
        none) := by
  simp [process_buy, hs, hso, hunp, hinit, hp, hto, htunp, hown]

/-- C1 witness: the Buy effect trace evaluated at a concrete input
(amount 4, price 5). -/
theorem buy_requests_two_transfers_witness :
    process_buy accountsC 4 5 pidC =
      ([.token (.transfer tokenProgC.key userQuoteC.key substQuoteC.key
          buyerC.key [buyerC.key] (4 * 5 % U64MOD) []),
        .token (.transfer tokenProgC.key substBaseC.key userBaseC.key
          (find_program_address [storeSeed] pidC).1
          [(find_program_address [storeSeed] pidC).1] 4
          [[storeSeed, [(find_program_address [storeSeed] pidC).2]]])],
        none) :=
  buy_requests_two_transfers buyerC storeAccC substQuoteC substBaseC
    userQuoteC userBaseC pdaAccC tokenProgC [] 4 5 pidC storeRecordC
    ⟨List.replicate 32 0, ownerKeyC, 0, none, 1, none, 0, none⟩
    (by decide) (by decide) (by decide) (by decide) (by decide) (by decide)
    (by decide) (by decide)

/-- C2: when the Sell handler's preconditions hold (signing seller; store
account owned by this program; record initialized; supplied price equal to
the stored price; store-side base-token account owned by the token-ledger
program with ledger-reported authority equal to the record's owner address),
Sell requests exactly two token transfers in order: first `amount`
base-token units from the seller's base-token account to the store's
base-token account authorized by the seller's signature, then
`amount * price` (wrapping u64) quote-token units from the store's
quote-token account to the seller's quote-token account authorized by the
program-derived authority. -/
theorem sell_requests_two_transfers
    (a0 a1 a2 a3 a4 a5 a6 a7 : AccountInfo) (rest : List AccountInfo)
    (amount price : Nat) (pid : Pubkey) (si : Store) (ti : SplTokenAccount)
    (hs : a0.is_signer = true)
    (hso : a1.owner = pid)
    (hunp : Store.unpack_unchecked a1.data = .ok si)
    (hinit : si.is_initialized = true)
    (hp : price = si.price)
    (hto : a3.owner = spl_token_id)
    (htunp : SplTokenAccount.unpack_unchecked a3.data = .ok ti)
    (hown : ti.owner = si.owner_pubkey) :
    process_sell (a0 :: a1 :: a2 :: a3 :: a4 :: a5 :: a6 :: a7 :: rest)
        amount price pid =
      ([.token (.transfer a7.key a5.key a3.key a0.key [a0.key] amount []),
        .token (.transfer a7.key a2.key a4.key
          (find_program_address [storeSeed] pid).1
          [(find_program_address [storeSeed] pid).1]
          (amount * price % U64MOD)
          [[storeSeed, [(find_program_address [storeSeed] pid).2]]])],
        none) := by
  simp [process_sell, hs, hso, hunp, hinit, hp, hto, htunp, hown]

/-- C2 witness: the Sell effect trace evaluated at a concrete input
(amount 6, price 5). -/
theorem sell_requests_two_transfers_witness :
    process_sell accountsC 6 5 pidC =
      ([.token (.transfer tokenProgC.key userBaseC.key substBaseC.key
          buyerC.key [buyerC.key] 6 []),
        .token (.transfer tokenProgC.key substQuoteC.key userQuoteC.key
          (find_program_address [storeSeed] pidC).1
          [(find_program_address [storeSeed] pidC).1] (6 * 5 % U64MOD)
          [[storeSeed, [(find_program_address [storeSeed] pidC).2]]])],
        none) :=
  sell_requests_two_transfers buyerC storeAccC substQuoteC substBaseC
    userQuoteC userBaseC pdaAccC tokenProgC [] 6 5 pidC storeRecordC
    ⟨List.replicate 32 0, ownerKeyC, 0, none, 1, none, 0, none⟩
    (by decide) (by decide) (by decide) (by decide) (by decide) (by decide)
    (by decide) (by decide)

/-- C5: a Buy or Sell against an initialized record whose caller-supplied
price differs from the stored price fails with the program's own
`AccountPriceMismatch` code (`Custom 0`), distinct from the generic
`InvalidAccountData` code, and requests zero token-ledger effects. -/
theorem buy_sell_price_mismatch_rejects
    (a0 a1 : AccountInfo) (rest rest' : List AccountInfo)
    (amount price : Nat) (pid : Pubkey) (si : Store)
    (hs : a0.is_signer = true)
    (hso : a1.owner = pid)
    (hunp : Store.unpack_unchecked a1.data = .ok si)
    (hinit : si.is_initialized = true)
    (hne : price ≠ si.price) :
    process_buy (a0 :: a1 :: rest) amount price pid =
      ([], some (StoreError.toProgramError .AccountPriceMismatch)) ∧
    process_sell (a0 :: a1 :: rest') amount price pid =
      ([], some (StoreError.toProgramError .AccountPriceMismatch)) ∧
    StoreError.toProgramError .AccountPriceMismatch ≠ .InvalidAccountData := by
  refine ⟨?_, ?_, by decide⟩
  · simp [process_buy, hs, hso, hunp, hinit, hne]
  · simp [process_sell, hs, hso, hunp, hinit, hne]

/-- C5 witness: Buy and Sell at supplied price 6 against stored price 5. -/
theorem buy_sell_price_mismatch_rejects_witness :
    process_buy [buyerC, storeAccC] 3 6 pidC =
      ([], some (StoreError.toProgramError .AccountPriceMismatch)) ∧
    process_sell [buyerC, storeAccC] 3 6 pidC =
      ([], some (StoreError.toProgramError .AccountPriceMismatch)) :=
  have h := buy_sell_price_mismatch_rejects buyerC storeAccC [] [] 3 6 pidC
    storeRecordC (by decide) (by decide) (by decide) (by decide) (by decide)
  ⟨h.1, h.2.1⟩

/-- C4: for an initialized record reached through a signed request on a
store account owned by this program, UpdatePrice by a signer other than the
record's owner fails with the `InvalidAccountData` code (the source's
rendering of the spec's `AuthorityMismatch`) and issues no write, while
UpdatePrice signed by the record's owner succeeds and writes back the record
with only the `price` field replaced — `is_initialized`, the owner address
and both token-account identifiers exactly as before. -/
theorem update_price_owner_gate_and_frame
    (a0 a1 : AccountInfo) (rest : List AccountInfo) (price : Nat)
    (pid : Pubkey) (si : Store)
    (hs : a0.is_signer = true)
    (hso : a1.owner = pid)
    (hunp : Store.unpack_unchecked a1.data = .ok si)
    (hinit : si.is_initialized = true) :
    (si.owner_pubkey ≠ a0.key →
      process_update_price (a0 :: a1 :: rest) price pid =
        ([], some .InvalidAccountData)) ∧
    (si.owner_pubkey = a0.key →
      process_update_price (a0 :: a1 :: rest) price pid =
        ([.writeStore (Store.pack_into_slice { si with price := price })],
          none)) := by
  constructor
  · intro h; simp [process_update_price, hs, hso, hunp, hinit, h]
  · intro h; simp [process_update_price, hs, hso, hunp, hinit, h]

/-- C4 witness: both branches evaluated — a non-owner signer is rejected
with no write, the owner's update writes the record with price 7 and every
other field as in `storeRecordC`. -/
theorem update_price_owner_gate_and_frame_witness :
    process_update_price [nonOwnerC, storeAccC] 7 pidC =
      ([], some .InvalidAccountData) ∧
    process_update_price [ownerSignedC, storeAccC] 7 pidC =
      ([.writeStore (Store.pack_into_slice { storeRecordC with price := 7 })],
        none) :=
  ⟨(update_price_owner_gate_and_frame nonOwnerC storeAccC [] 7 pidC
      storeRecordC (by decide) (by decide) (by decide) (by decide)).1
      (by decide),
   (update_price_owner_gate_and_frame ownerSignedC storeAccC [] 7 pidC
      storeRecordC (by decide) (by decide) (by decide) (by decide)).2
      (by decide)⟩

/-- C3: on every account state whose store record is already initialized,
Initialize fails — the effect trace contains no record write (the record
write is the handler's last operation, so no rejection leaves the record in
an intermediate state) — and when every earlier check passes (signer, both
token accounts owned by the token ledger, storage exemption, program
ownership of the store account) the error is `AccountAlreadyInitialized`. -/
theorem init_already_initialized_rejects
    (a0 a1 a2 a3 a4 a5 : AccountInfo) (rest : List AccountInfo)
    (price : Nat) (pid : Pubkey) (rentExempt : Nat → Nat → Bool) (si : Store)
    (hunp : Store.unpack_unchecked a1.data = .ok si)
    (hinit : si.is_initialized = true) :
    (∀ d, Effect.writeStore d ∉
      (process_init_store (a0 :: a1 :: a2 :: a3 :: a4 :: a5 :: rest)
        price pid rentExempt).1) ∧
    (process_init_store (a0 :: a1 :: a2 :: a3 :: a4 :: a5 :: rest)
      price pid rentExempt).2 ≠ none ∧
    (a0.is_signer = true → a3.owner = spl_token_id → a2.owner = spl_token_id →
      rentExempt a1.lamports a1.data.length = true → a1.owner = pid →
      (process_init_store (a0 :: a1 :: a2 :: a3 :: a4 :: a5 :: rest)
        price pid rentExempt).2 = some .AccountAlreadyInitialized) := by
  refine ⟨?_, ?_, ?_⟩
  · intro d
    simp only [process_init_store, hunp, hinit]
    split <;> try simp
    split <;> try simp
    split <;> try simp
    split <;> try simp
    split <;> simp
  · simp only [process_init_store, hunp, hinit]
    split <;> try simp
    split <;> try simp
    split <;> try simp
    split <;> try simp
    split <;> simp
  · intro h1 h2 h3 h4 h5
    simp [process_init_store, h1, h2, h3, h4, h5, hunp, hinit]

/-- C3 witness: a second Initialize on the already-initialized concrete
record, with every earlier check passing, returns `AccountAlreadyInitialized`. -/
theorem init_already_initialized_rejects_witness :
    (process_init_store
      [ownerSignedC, storeAccC, substQuoteC, substBaseC, tokenProgC, rentAccC]
      7 pidC (fun _ _ => true)).2 = some .AccountAlreadyInitialized :=
  (init_already_initialized_rejects ownerSignedC storeAccC substQuoteC
    substBaseC tokenProgC rentAccC [] 7 pidC (fun _ _ => true) storeRecordC
    (by decide) (by decide)).2.2 (by decide) (by decide) (by decide)
    (by decide) (by decide)

/-- C8: the quote-side quantity is computed identically by the two handlers
as the wrapping unsigned 64-bit product: under each handler's preconditions,
the transfer Buy requests first and the transfer Sell requests second both
carry exactly `amount * price % 2 ^ 64` quote-token units — one policy
(wrap modulo `2 ^ 64`), the same in Buy and in Sell for every pair. -/
theorem buy_sell_same_wrapping_quote_quantity
    (b0 b1 b2 b3 b4 b5 b6 b7 s0 s1 s2 s3 s4 s5 s6 s7 : AccountInfo)
    (brest srest : List AccountInfo) (amount price : Nat)
    (pidb pids : Pubkey) (sib sis : Store) (tib tis : SplTokenAccount)
    (hbs : b0.is_signer = true) (hbso : b1.owner = pidb)
    (hbunp : Store.unpack_unchecked b1.data = .ok sib)
    (hbinit : sib.is_initialized = true) (hbp : price = sib.price)
    (hbto : b2.owner = spl_token_id)
    (hbtunp : SplTokenAccount.unpack_unchecked b2.data = .ok tib)
    (hbown : tib.owner = sib.owner_pubkey)
    (hss : s0.is_signer = true) (hsso : s1.owner = pids)
    (hsunp : Store.unpack_unchecked s1.data = .ok sis)
    (hsinit : sis.is_initialized = true) (hsp : price = sis.price)
    (hsto : s3.owner = spl_token_id)
    (hstunp : SplTokenAccount.unpack_unchecked s3.data = .ok tis)
    (hsown : tis.owner = sis.owner_pubkey) :
    transfer_amount_at
      (process_buy (b0 :: b1 :: b2 :: b3 :: b4 :: b5 :: b6 :: b7 :: brest)
        amount price pidb).1 0 = some (amount * price % U64MOD) ∧
    transfer_amount_at
      (process_sell (s0 :: s1 :: s2 :: s3 :: s4 :: s5 :: s6 :: s7 :: srest)
        amount price pids).1 1 = some (amount * price % U64MOD) ∧
    transfer_amount_at
      (process_buy (b0 :: b1 :: b2 :: b3 :: b4 :: b5 :: b6 :: b7 :: brest)
        amount price pidb).1 0 =
      transfer_amount_at
        (process_sell (s0 :: s1 :: s2 :: s3 :: s4 :: s5 :: s6 :: s7 :: srest)
          amount price pids).1 1 := by
  have h1 : transfer_amount_at
      (process_buy (b0 :: b1 :: b2 :: b3 :: b4 :: b5 :: b6 :: b7 :: brest)
        amount price pidb).1 0 = some (amount * price % U64MOD) := by
    simp [process_buy, hbs, hbso, hbunp, hbinit, hbp, hbto, hbtunp, hbown,
      transfer_amount_at]
  have h2 : transfer_amount_at
      (process_sell (s0 :: s1 :: s2 :: s3 :: s4 :: s5 :: s6 :: s7 :: srest)
        amount price pids).1 1 = some (amount * price % U64MOD) := by
    simp [process_sell, hss, hsso, hsunp, hsinit, hsp, hsto, hstunp, hsown,
      transfer_amount_at]
  exact ⟨h1, h2, h1.trans h2.symm⟩

/-- C8 witness: at the edge of the u64 range — amount `2 ^ 63`, price 5 —
both handlers' quote transfers carry the wrapped value
`2 ^ 63 * 5 % 2 ^ 64`. -/
theorem buy_sell_same_wrapping_quote_quantity_witness :
    transfer_amount_at (process_buy accountsC (2 ^ 63) 5 pidC).1 0 =
      some (2 ^ 63 * 5 % U64MOD) ∧
    transfer_amount_at (process_sell accountsC (2 ^ 63) 5 pidC).1 1 =
      some (2 ^ 63 * 5 % U64MOD) :=
  have h := buy_sell_same_wrapping_quote_quantity buyerC storeAccC substQuoteC
    substBaseC userQuoteC userBaseC pdaAccC tokenProgC buyerC storeAccC
    substQuoteC substBaseC userQuoteC userBaseC pdaAccC tokenProgC [] []
    (2 ^ 63) 5 pidC pidC storeRecordC storeRecordC
    ⟨List.replicate 32 0, ownerKeyC, 0, none, 1, none, 0, none⟩
    ⟨List.replicate 32 0, ownerKeyC, 0, none, 1, none, 0, none⟩
    (by decide) (by decide) (by decide) (by decide) (by decide) (by decide)
    (by decide) (by decide) (by decide) (by decide) (by decide) (by decide)
    (by decide) (by decide) (by decide) (by decide)
  ⟨h.1, h.2.1⟩

/-- C6: neither Buy nor Sell compares the caller-supplied store-side token
accounts (positions 2 and 3) against the identifiers persisted in the store
record: at this concrete input both store-side accounts differ from the
recorded `native_tokens_to_auto_sell_pubkey` and
`store_tokens_to_auto_buy_pubkey`, every check the handlers perform passes,
and both handlers request their two transfers against the substituted
accounts. -/
theorem buy_sell_skip_recorded_account_check :
    (substQuoteC.key ≠ storeRecordC.native_tokens_to_auto_sell_pubkey ∧
     substQuoteC.key ≠ storeRecordC.store_tokens_to_auto_buy_pubkey ∧
     substBaseC.key ≠ storeRecordC.native_tokens_to_auto_sell_pubkey ∧
     substBaseC.key ≠ storeRecordC.store_tokens_to_auto_buy_pubkey) ∧
    Store.unpack_unchecked storeAccC.data = .ok storeRecordC ∧
    process_buy accountsC 3 5 pidC =
      ([.token (.transfer tokenProgC.key userQuoteC.key substQuoteC.key
          buyerC.key [buyerC.key] (3 * 5 % U64MOD) []),
        .token (.transfer tokenProgC.key substBaseC.key userBaseC.key
          (find_program_address [storeSeed] pidC).1
          [(find_program_address [storeSeed] pidC).1] 3
          [[storeSeed, [(find_program_address [storeSeed] pidC).2]]])],
        none) ∧
    process_sell accountsC 3 5 pidC =
      ([.token (.transfer tokenProgC.key userBaseC.key substBaseC.key
          buyerC.key [buyerC.key] 3 []),
        .token (.transfer tokenProgC.key substQuoteC.key userQuoteC.key
          (find_program_address [storeSeed] pidC).1
          [(find_program_address [storeSeed] pidC).1] (3 * 5 % U64MOD)
          [[storeSeed, [(find_program_address [storeSeed] pidC).2]]])],
        none) := by
  refine ⟨⟨by decide, by decide, by decide, by decide⟩, by decide, by decide,
    by decide⟩

/-- C7 counterexample: three different rejection causes — UpdatePrice signed
by a non-owner (the spec's `AuthorityMismatch`), a corrupt stored record
(the spec's `LayoutError`), and the Buy store-side authority check failing —
all surface the one code `InvalidAccountData`, so the first is not
distinguishable by its code from the other two. -/
theorem authority_mismatch_code_not_distinct :
    (process_update_price [nonOwnerC, storeAccC] 7 pidC).2 =
      some .InvalidAccountData ∧
    Store.unpack_unchecked (2 :: List.replicate 104 0) =
      .error .InvalidAccountData ∧
    (process_buy [buyerC, storeAccC, wrongAuthQuoteC, substBaseC] 3 5
      pidC).2 = some .InvalidAccountData := by
  refine ⟨by decide, by decide, by decide⟩

/-- C7 amended: `PriceMismatch` does surface a distinct stable code
(`Custom 0`), but the `AuthorityMismatch` rejection (signer is not the
record's owner), the `LayoutError` rejection (corrupt stored record) and the
Buy/Sell store-side authority-check rejection all surface the same
`InvalidAccountData` code, so they are not distinguishable from one
another by code. -/
theorem error_code_collision_amended
    (a0 a1 b0 b1 b2 b3 : AccountInfo) (rest brest : List AccountInfo)
    (price amount bprice : Nat) (pid bpid : Pubkey) (si bsi : Store)
    (ti : SplTokenAccount)
    (hs : a0.is_signer = true) (hso : a1.owner = pid)
    (hunp : Store.unpack_unchecked a1.data = .ok si)
    (hinit : si.is_initialized = true)
    (howner : si.owner_pubkey ≠ a0.key)
    (hbs : b0.is_signer = true) (hbso : b1.owner = bpid)
    (hbunp : Store.unpack_unchecked b1.data = .ok bsi)
    (hbinit : bsi.is_initialized = true) (hbp : bprice = bsi.price)
    (hbto : b2.owner = spl_token_id)
    (hbtunp : SplTokenAccount.unpack_unchecked b2.data = .ok ti)
    (hbown : ti.owner ≠ bsi.owner_pubkey) :
    (process_update_price (a0 :: a1 :: rest) price pid).2 =
      some .InvalidAccountData ∧
    (∀ b tl, (b :: tl : List Nat).length = 105 → b ≠ 0 → b ≠ 1 →
      Store.unpack_unchecked (b :: tl) = .error .InvalidAccountData) ∧
    (process_buy (b0 :: b1 :: b2 :: b3 :: brest) amount bprice bpid).2 =
      some .InvalidAccountData ∧
    StoreError.toProgramError .AccountPriceMismatch ≠ .InvalidAccountData := by
  refine ⟨?_, ?_, ?_, by decide⟩
  · simp [process_update_price, hs, hso, hunp, hinit, howner]
  · intro b tl hlen hb0 hb1
    rw [Store.unpack_unchecked,
      if_pos (show (b :: tl : List Nat).length = Store.LEN from hlen)]
    match b, hb0, hb1 with
    | Nat.succ (Nat.succ m), _, _ => rfl
  · simp [process_buy, hbs, hbso, hbunp, hbinit, hbp, hbto, hbtunp, hbown]

/-- C7 witness: the amended statement evaluated at concrete inputs (flag
byte 3 for the corrupt record). -/
theorem error_code_collision_amended_witness :
    (process_update_price [nonOwnerC, storeAccC] 8 pidC).2 =
      some .InvalidAccountData ∧
    Store.unpack_unchecked (3 :: List.replicate 104 0) =
      .error .InvalidAccountData ∧
    (process_buy [buyerC, storeAccC, wrongAuthQuoteC, substBaseC] 4 5
      pidC).2 = some .InvalidAccountData :=
  have h := error_code_collision_amended nonOwnerC storeAccC buyerC storeAccC
    wrongAuthQuoteC substBaseC [] [] 8 4 5 pidC pidC storeRecordC storeRecordC
    ⟨List.replicate 32 0, List.replicate 32 50, 0, none, 1, none, 0, none⟩
    (by decide) (by decide) (by decide) (by decide) (by decide) (by decide)
    (by decide) (by decide) (by decide) (by decide) (by decide) (by decide)
    (by decide)
  ⟨h.1, h.2.1 3 (List.replicate 104 0) (by simp) (by decide) (by decide),
    h.2.2.1⟩
